import Mathlib

/-!
Shallow embedding of the core logic of `src/app.py` (QueryCraft, a
text-to-SQL conversion app): the SQL validator `validate_sql`, the
response cleaner `clean_sql_query`, the orchestration function
`get_gemini_response`, and the history-append decision made by
`query_converter_page`.  Strings are modelled as `List Char` and the
Python string operations used by the code are modelled explicitly.
-/

/-- Characters of a string literal, as the `List Char` the embedding works over. -/
def chars (s : String) : List Char := s.data

/-- Python `str.strip()` default whitespace set (the ASCII part, which is all
the embedded code ever meets). -/
def pyIsSpace (c : Char) : Bool :=
  c == ' ' || c == '\t' || c == '\n' || c == '\r' || c == '\x0b' || c == '\x0c'

/-- Python `str.lower()` on one character (ASCII range). -/
def pyToLower (c : Char) : Char :=
  if 'A' ≤ c && c ≤ 'Z' then Char.ofNat (c.toNat + 32) else c

/-- Python `str.lower()`. -/
def pyLowerL (s : List Char) : List Char := s.map pyToLower

/-- Python `str.strip()`: drop leading and trailing whitespace. -/
def pyStrip (s : List Char) : List Char :=
  List.rdropWhile pyIsSpace (List.dropWhile pyIsSpace s)

/-- Python `str.startswith(p)` (first argument is the pattern). -/
def startsWithL : List Char → List Char → Bool
  | [], _ => true
  | _ :: _, [] => false
  | p :: ps, c :: cs => p == c && startsWithL ps cs

/-- Python `str.endswith(p)` (first argument is the pattern). -/
def endsWithL (p s : List Char) : Bool := startsWithL p.reverse s.reverse

/-- Python substring containment `n in h`. -/
def hasSubstr (n : List Char) : List Char → Bool
  | [] => n.isEmpty
  | c :: rest => startsWithL n (c :: rest) || hasSubstr n rest

/-! ## Constants from `src/app.py` -/

/-- `SENSITIVE_KEYWORDS` (app.py line 31). -/
def SENSITIVE_KEYWORDS : List (List Char) :=
  [chars "password", chars "credit_card", chars "ssn", chars "social security", chars "pin"]

/-- `MAX_QUERY_LENGTH` (app.py line 32). -/
def MAX_QUERY_LENGTH : Nat := 2000

/-- The allowed leading tokens of `validate_sql` (app.py line 92). -/
def ALLOWED_STARTS : List (List Char) :=
  [chars "select", chars "insert", chars "update", chars "delete"]

/-- The denylisted substrings of `validate_sql` (app.py line 96). -/
def DANGEROUS_KEYWORDS : List (List Char) :=
  [chars "drop", chars "truncate", chars "alter"]

/-- The ordered label list `prefixes_to_remove` of `clean_sql_query`
(app.py line 115). -/
def PREFIXES_TO_REMOVE : List (List Char) :=
  [chars "SQL Query:", chars "SQL:", chars "Query:", chars "Answer:"]

/-! ## `validate_sql` (app.py lines 86-98) -/

/-- `validate_sql(query)`: returns `(is_valid, reason)` exactly as the Python
function does.  The Python code checks `not query`, then lower-cases and
strips, then checks the leading token, then `';' in query[:-1]`, then the
dangerous substrings. -/
def validate_sql (query : List Char) : Bool × List Char :=
  if query.isEmpty then (false, chars "Empty query")
  else
    let q := pyStrip (pyLowerL query)
    if !(ALLOWED_STARTS.any (fun p => startsWithL p q)) then
      (false, chars "Query must start with SELECT, INSERT, UPDATE, or DELETE")
    else if q.dropLast.contains ';' then
      (false, chars "Multiple queries not allowed")
    else if DANGEROUS_KEYWORDS.any (fun k => hasSubstr k q) then
      (false, chars "Potentially dangerous operation detected")
    else (true, [])

/-! ## `clean_sql_query` (app.py lines 100-120) -/

/-- Lines 106-109: remove a leading markdown fence; only the exact text
`` ```sql `` loses its language tag (6 characters), any other leading
`` ``` `` loses just the three backticks. -/
def stripOpenFence (s : List Char) : List Char :=
  if startsWithL (chars "```sql") s then s.drop 6
  else if startsWithL (chars "```") s then s.drop 3
  else s

/-- Lines 111-112: remove a trailing `` ``` `` fence (`sql_query[:-3]`). -/
def stripCloseFence (s : List Char) : List Char :=
  if endsWithL (chars "```") s then s.take (s.length - 3) else s

/-- One iteration of the prefix-removal loop (lines 116-118): if the stripped
text starts with the label, drop the label from the stripped text and strip
again; otherwise leave the text alone. -/
def stripLabelStep (s : List Char) (label : List Char) : List Char :=
  if startsWithL label (pyStrip s) then pyStrip ((pyStrip s).drop label.length) else s

/-- The full `for prefix in prefixes_to_remove` loop (lines 115-118). -/
def stripLabels (s : List Char) : List Char :=
  PREFIXES_TO_REMOVE.foldl stripLabelStep s

/-- `clean_sql_query(sql_query)` (lines 100-120): empty input short-circuits
to empty output; otherwise strip fences, run the label loop, and strip. -/
def clean_sql_query (sql_query : List Char) : List Char :=
  if sql_query.isEmpty then []
  else pyStrip (stripLabels (stripCloseFence (stripOpenFence sql_query)))

/-! ## `get_gemini_response` (app.py lines 122-182) -/

/-- Outcome of the `model.generate_content(prompt)` call inside the `try`
block: either the raw response text, or one of the exception classes the
function catches (`ValueError`, `google_exceptions.InvalidArgument`,
`PermissionDenied`, `ResourceExhausted`, or any other `Exception`), each
carrying its `str(e)` message. -/
inductive GenOutcome where
  | ok (text : List Char)
  | valueError (msg : List Char)
  | invalidArgument (msg : List Char)
  | permissionDenied (msg : List Char)
  | resourceExhausted (msg : List Char)
  | otherException (msg : List Char)
deriving DecidableEq

/-- Line 128: `any(keyword in input_text.lower() for keyword in SENSITIVE_KEYWORDS)`. -/
def hasSensitiveKeyword (input_text : List Char) : Bool :=
  SENSITIVE_KEYWORDS.any (fun k => hasSubstr k (pyLowerL input_text))

/-- `get_gemini_response(input_text, model)`.  `model : Bool` models whether
the model handle is truthy (`if not model` on line 124); `g` is the outcome
of the generation call the function would make.  Every Python `return` maps
to a branch here, so the Lean function is total by construction: no branch
escapes as an exception. -/
def get_gemini_response (input_text : List Char) (model : Bool) (g : GenOutcome) :
    List Char :=
  if !model then chars "Error: Gemini AI model not initialized"
  else if hasSensitiveKeyword input_text then
    chars "Error: Query contains potentially sensitive keywords"
  else if input_text.length > MAX_QUERY_LENGTH then
    chars "Error: Query too long (max " ++ (Nat.repr MAX_QUERY_LENGTH).data
      ++ chars " characters)"
  else
    match g with
    | .ok t =>
        let cleaned_query := clean_sql_query t
        let v := validate_sql cleaned_query
        if !v.fst then chars "Validation Error: " ++ v.snd
        else cleaned_query
    | .valueError m =>
        if hasSubstr (chars "policy") (pyLowerL m) || hasSubstr (chars "safety") (pyLowerL m)
        then chars "Error: Prompt blocked for safety reasons"
        else chars "Error: " ++ m
    | .invalidArgument m => chars "Error: Invalid prompt - " ++ m
    | .permissionDenied m => chars "Error: API key rejected - " ++ m
    | .resourceExhausted m => chars "Error: API quota exceeded - " ++ m
    | .otherException m => chars "Error generating SQL query: " ++ m

/-! ## History-append decision of `query_converter_page` (app.py lines 558-585) -/

/-- Whether `query_converter_page` appends a `HistoryEntry` for the result
string `sql_query` returned by `get_gemini_response`.  Line 562 returns early
when `sql_query.startswith("Error")`; line 579 appends when
`save_history and sql_query and not sql_query.startswith("Error")`. -/
def query_converter_appends (save_history : Bool) (sql_query : List Char) : Bool :=
  if startsWithL (chars "Error") sql_query then false
  else save_history && !sql_query.isEmpty && !(startsWithL (chars "Error") sql_query)

/-! ## Bridging lemmas between the executable Python-style operations and
    Mathlib's prefix/suffix/infix relations -/

theorem startsWithL_iff (p s : List Char) : startsWithL p s = true ↔ p <+: s := by
  induction s generalizing p with
  | nil => cases p <;> simp [startsWithL]
  | cons c cs ih =>
    cases p with
    | nil => simp [startsWithL]
    | cons a ps => simp [startsWithL, List.cons_prefix_cons, ih]

theorem hasSubstr_iff (n h : List Char) : hasSubstr n h = true ↔ n <:+: h := by
  induction h with
  | nil => simp [hasSubstr, List.isEmpty_iff]
  | cons c cs ih => simp [hasSubstr, startsWithL_iff, ih, List.infix_cons_iff]

theorem startsWithL_append_left (p a b : List Char) (h : startsWithL p a = true) :
    startsWithL p (a ++ b) = true := by
  rw [startsWithL_iff] at h ⊢
  exact h.trans (List.prefix_append a b)

theorem startsWithL_self_append (p b : List Char) : startsWithL p (p ++ b) = true := by
  rw [startsWithL_iff]; exact List.prefix_append p b

theorem startsWithL_pattern_append (a b s : List Char)
    (h : startsWithL (a ++ b) s = true) : startsWithL a s = true := by
  rw [startsWithL_iff] at h ⊢
  exact (List.prefix_append a b).trans h

theorem startsWithL_append_both (a p s : List Char) :
    startsWithL (a ++ p) (a ++ s) = startsWithL p s := by
  induction a with
  | nil => rfl
  | cons c cs ih => simp [startsWithL, ih]

theorem startsWithL_cons_shape (c : Char) (pat s : List Char)
    (h : startsWithL (c :: pat) s = true) :
    ∃ u, s = c :: u ∧ startsWithL pat u = true := by
  cases s with
  | nil => simp [startsWithL] at h
  | cons a u =>
    simp only [startsWithL, Bool.and_eq_true, beq_iff_eq] at h
    exact ⟨u, by rw [h.1], h.2⟩

/-! ## Claim C10 -/

/-- C10: for every question and every generation outcome, an uninitialized
model handle (`model = false`, Python `None`) makes `get_gemini_response`
return the failure string "Error: Gemini AI model not initialized" at once;
since this holds for every input (including sensitive or over-long ones) and
every client outcome, none of the later checks or the client call can
influence the result. -/
theorem C10_uninitialized_model_short_circuits (input : List Char) (g : GenOutcome) :
    get_gemini_response input false g = chars "Error: Gemini AI model not initialized" := rfl

/-! ## Claim C1 -/

/-- C1: the code violates the history invariant.  When the raw model text
cleans to "DROP TABLE employees", the validator rejects it, and
`get_gemini_response` returns "Validation Error: Query must start with
SELECT, INSERT, UPDATE, or DELETE" — a string that does NOT start with
"Error", so `query_converter_page` both misses its early `return` and passes
its `not sql_query.startswith("Error")` guard, appending a `HistoryEntry`
whose `sql_query` field is the validation-error message. -/
theorem C1_validation_reject_still_appends_history :
    (validate_sql (clean_sql_query (chars "Query: DROP TABLE employees"))).fst = false
    ∧ get_gemini_response (chars "Show me all employees") true
        (GenOutcome.ok (chars "Query: DROP TABLE employees"))
      = chars "Validation Error: Query must start with SELECT, INSERT, UPDATE, or DELETE"
    ∧ query_converter_appends true
        (get_gemini_response (chars "Show me all employees") true
          (GenOutcome.ok (chars "Query: DROP TABLE employees"))) = true := by
  refine ⟨by decide, by decide, by decide⟩

/-! ## Claim C2 -/

/-- C2 counterexample: the claim says the validator rejects the cleaned text
"DROP TABLE employees" with reason "Potentially dangerous operation
detected"; in fact the statement-type check fires first and the reason is
"Query must start with SELECT, INSERT, UPDATE, or DELETE". -/
theorem C2_counterexample :
    clean_sql_query (chars "Query: DROP TABLE employees") = chars "DROP TABLE employees"
    ∧ validate_sql (chars "DROP TABLE employees")
      = (false, chars "Query must start with SELECT, INSERT, UPDATE, or DELETE")
    ∧ chars "Query must start with SELECT, INSERT, UPDATE, or DELETE"
      ≠ chars "Potentially dangerous operation detected" := by
  refine ⟨by decide, by decide, by decide⟩

/-- C2 amended: the cleaner turns "Query: DROP TABLE employees" into
"DROP TABLE employees" and the validator rejects it, but the reason is the
statement-type one, because that check precedes the dangerous-operation
check — even though the dangerous substring "drop" is indeed present in the
lower-cased stripped text. -/
theorem C2_amended_reject_reason :
    clean_sql_query (chars "Query: DROP TABLE employees") = chars "DROP TABLE employees"
    ∧ validate_sql (chars "DROP TABLE employees")
      = (false, chars "Query must start with SELECT, INSERT, UPDATE, or DELETE")
    ∧ hasSubstr (chars "drop") (pyStrip (pyLowerL (chars "DROP TABLE employees"))) = true := by
  refine ⟨by decide, by decide, by decide⟩

/-! ## Claim C3 -/

/-- C3 counterexample: the claim says at most one label is stripped with the
first match winning, so "SQL: Query: select 1" would clean to
"Query: select 1"; in fact the loop keeps testing later labels against the
already-stripped text and the result is "select 1". -/
theorem C3_counterexample :
    clean_sql_query (chars "SQL: Query: select 1") = chars "select 1"
    ∧ chars "select 1" ≠ chars "Query: select 1" := by
  refine ⟨by decide, by decide⟩

/-- C3 amended: the cleaner makes one pass over the ordered label list
["SQL Query:", "SQL:", "Query:", "Answer:"], stripping each label at most
once when the current stripped text starts with it.  The same label is never
stripped twice in a pass — "SQL: SQL: select 1" yields "SQL: select 1" — but
distinct labels can each be stripped in sequence: "SQL: Query: select 1"
yields "select 1" and "SQL Query: SQL: Query: Answer: ok" loses all four
labels. -/
theorem C3_amended_one_pass_per_label :
    clean_sql_query (chars "SQL: SQL: select 1") = chars "SQL: select 1"
    ∧ clean_sql_query (chars "SQL: Query: select 1") = chars "select 1"
    ∧ clean_sql_query (chars "SQL Query: SQL: Query: Answer: ok") = chars "ok" := by
  refine ⟨by decide, by decide, by decide⟩

/-! ## Claim C7, counterexample part -/

/-- C7 counterexample: the claim says every opening fence marker is removed
together with its language tag; for the raw text starting with
`` ```mysql `` only the three backticks are removed and the tag "mysql"
remains at the head of the cleaned output. -/
theorem C7_counterexample :
    clean_sql_query (chars "```mysql\nselect 1\n```") = chars "mysql\nselect 1"
    ∧ startsWithL (chars "mysql")
        (clean_sql_query (chars "```mysql\nselect 1\n```")) = true := by
  refine ⟨by decide, by decide⟩

/-! ## Claim C8, counterexample part -/

/-- C8 counterexample: cleaning is not idempotent.  The opening-fence test
runs on the untrimmed text, so a leading space hides the fence from the
first pass; the first pass output starts with the fence, which the second
pass then strips. -/
theorem C8_counterexample :
    clean_sql_query (chars " ```sql select 1") = chars "```sql select 1"
    ∧ clean_sql_query (clean_sql_query (chars " ```sql select 1")) = chars "select 1"
    ∧ clean_sql_query (clean_sql_query (chars " ```sql select 1"))
      ≠ clean_sql_query (chars " ```sql select 1") := by
  refine ⟨by decide, by decide, by decide⟩

/-! ## Claim C9 -/

theorem pyToLower_of_space (c : Char) (h : pyIsSpace c = true) : pyToLower c = c := by
  simp only [pyIsSpace, Bool.or_eq_true, beq_iff_eq] at h
  rcases h with ((((h | h) | h) | h) | h) | h <;> subst h <;> decide

/-- C9: a non-empty all-whitespace string passes the `not query` test, then
lower-cases and strips to the empty string, which starts with none of the
allowed tokens, so the validator rejects with the statement-type reason and
not with "Empty query". -/
theorem C9_whitespace_only_rejected_as_nonstarter (s : List Char)
    (h₁ : s ≠ []) (h₂ : ∀ c ∈ s, pyIsSpace c = true) :
    validate_sql s
      = (false, chars "Query must start with SELECT, INSERT, UPDATE, or DELETE") := by
  have hne : s.isEmpty = false := by
    cases s with
    | nil => exact absurd rfl h₁
    | cons a u => rfl
  have hlow : pyLowerL s = s := by
    unfold pyLowerL
    rw [List.map_congr_left fun c hc => pyToLower_of_space c (h₂ c hc)]
    simp
  have hq : pyStrip (pyLowerL s) = [] := by
    rw [hlow, pyStrip, List.dropWhile_eq_nil_iff.mpr h₂, List.rdropWhile_nil]
  rw [validate_sql]
  rw [hne]
  simp only [Bool.false_eq_true, if_false, hq]
  decide

/-- Witness for C9 at the concrete all-whitespace input " ". -/
theorem C9_witness :
    validate_sql (chars " ")
      = (false, chars "Query must start with SELECT, INSERT, UPDATE, or DELETE") :=
  C9_whitespace_only_rejected_as_nonstarter (chars " ") (by decide) (by decide)

/-! ## Claim C6 -/

/-- C6: for every question containing a sensitive keyword or longer than 2000
characters, `get_gemini_response` returns the same failure string for every
client outcome (so the client is never consulted), the result is an
"Error"-tagged string, and when the rejection is for length (the sensitive
check fires first when both apply) the message contains "2000". -/
theorem C6_precall_rejection (input : List Char)
    (h : hasSensitiveKeyword input = true ∨ input.length > 2000) :
    (∀ g g', get_gemini_response input true g = get_gemini_response input true g')
    ∧ (∀ g, startsWithL (chars "Error") (get_gemini_response input true g) = true)
    ∧ (hasSensitiveKeyword input = false → ∀ g,
        hasSubstr (chars "2000") (get_gemini_response input true g) = true) := by
  cases hs : hasSensitiveKeyword input with
  | true =>
    have hr : ∀ g, get_gemini_response input true g
        = chars "Error: Query contains potentially sensitive keywords" := by
      intro g; simp [get_gemini_response, hs]
    refine ⟨fun g g' => by rw [hr g, hr g'], fun g => by rw [hr g]; decide, fun hq => ?_⟩
    exact absurd hq (by decide)
  | false =>
    have hlen : input.length > MAX_QUERY_LENGTH := by
      rcases h with h | h
      · rw [hs] at h; exact absurd h (by decide)
      · exact h
    have hr : ∀ g, get_gemini_response input true g
        = chars "Error: Query too long (max " ++ (Nat.repr MAX_QUERY_LENGTH).data
          ++ chars " characters)" := by
      intro g; simp [get_gemini_response, hs, hlen]
    exact ⟨fun g g' => by rw [hr g, hr g'], fun g => by rw [hr g]; decide,
      fun _ g => by rw [hr g]; decide⟩

theorem hasSubstr_cons_replicate (d : Char) (k : List Char) (c : Char)
    (hdc : (d == c) = false) :
    ∀ n, hasSubstr (d :: k) (List.replicate n c) = false := by
  intro n
  induction n with
  | zero => rfl
  | succ m ih =>
    rw [List.replicate_succ]
    simp [hasSubstr, startsWithL, hdc, ih]

theorem no_sensitive_in_replicate_a :
    hasSensitiveKeyword (List.replicate 2001 'a') = false := by
  have hmap : pyLowerL (List.replicate 2001 'a') = List.replicate 2001 'a' := by
    have hl : pyToLower 'a' = 'a' := by decide
    rw [pyLowerL, List.map_replicate, hl]
  have e : SENSITIVE_KEYWORDS = ['p' :: chars "assword", 'c' :: chars "redit_card",
      's' :: chars "sn", 's' :: chars "ocial security", 'p' :: chars "in"] := rfl
  have h1 := hasSubstr_cons_replicate 'p' (chars "assword") 'a' (by decide) 2001
  have h2 := hasSubstr_cons_replicate 'c' (chars "redit_card") 'a' (by decide) 2001
  have h3 := hasSubstr_cons_replicate 's' (chars "sn") 'a' (by decide) 2001
  have h4 := hasSubstr_cons_replicate 's' (chars "ocial security") 'a' (by decide) 2001
  have h5 := hasSubstr_cons_replicate 'p' (chars "in") 'a' (by decide) 2001
  simp only [hasSensitiveKeyword, hmap, e, List.any_cons, List.any_nil,
    h1, h2, h3, h4, h5]
  rfl

/-- Witness for C6 at a concrete 2001-character question. -/
theorem C6_witness :
    get_gemini_response (List.replicate 2001 'a') true (GenOutcome.ok (chars "select 1"))
      = get_gemini_response (List.replicate 2001 'a') true
          (GenOutcome.permissionDenied (chars "denied"))
    ∧ startsWithL (chars "Error")
        (get_gemini_response (List.replicate 2001 'a') true
          (GenOutcome.ok (chars "select 1"))) = true
    ∧ hasSubstr (chars "2000")
        (get_gemini_response (List.replicate 2001 'a') true
          (GenOutcome.ok (chars "select 1"))) = true := by
  have h := C6_precall_rejection (List.replicate 2001 'a')
    (Or.inr (by rw [List.length_replicate]; decide))
  exact ⟨h.1 _ _, h.2.1 _, h.2.2 no_sensitive_in_replicate_a _⟩

/-! ## Claim C5 -/

/-- Spec-side reading of the statement-type check: the lower-cased trimmed
text starts with one of the allowed tokens. -/
def AllowedStartSpec (t : List Char) : Prop := ∃ p ∈ ALLOWED_STARTS, p <+: t

/-- Spec-side reading of the denylist check: one of the dangerous keywords
occurs somewhere in the lower-cased trimmed text. -/
def HasDangerSpec (t : List Char) : Prop := ∃ k ∈ DANGEROUS_KEYWORDS, k <:+: t

theorem allowed_any_iff (t : List Char) :
    (ALLOWED_STARTS.any fun p => startsWithL p t) = true ↔ AllowedStartSpec t := by
  simp [AllowedStartSpec, List.any_eq_true, startsWithL_iff]

theorem danger_any_iff (t : List Char) :
    (DANGEROUS_KEYWORDS.any fun k => hasSubstr k t) = true ↔ HasDangerSpec t := by
  simp [HasDangerSpec, List.any_eq_true, hasSubstr_iff]

instance decAllowedStartSpec (t : List Char) : Decidable (AllowedStartSpec t) :=
  inferInstanceAs (Decidable (∃ p ∈ ALLOWED_STARTS, p <+: t))

instance decHasDangerSpec (t : List Char) : Decidable (HasDangerSpec t) :=
  inferInstanceAs (Decidable (∃ k ∈ DANGEROUS_KEYWORDS, k <:+: t))

theorem validate_sql_reject_start (q : List Char) (h1 : q ≠ [])
    (h2 : ¬ AllowedStartSpec (pyStrip (pyLowerL q))) :
    validate_sql q
      = (false, chars "Query must start with SELECT, INSERT, UPDATE, or DELETE") := by
  have hne : q.isEmpty = false := by simp [List.isEmpty_iff, h1]
  simp only [AllowedStartSpec] at h2
  simp [validate_sql, hne, List.any_eq_true, startsWithL_iff, h2]

theorem validate_sql_reject_multi (q : List Char) (h1 : q ≠ [])
    (h2 : AllowedStartSpec (pyStrip (pyLowerL q)))
    (h3 : ';' ∈ (pyStrip (pyLowerL q)).dropLast) :
    validate_sql q = (false, chars "Multiple queries not allowed") := by
  have hne : q.isEmpty = false := by simp [List.isEmpty_iff, h1]
  simp only [AllowedStartSpec] at h2
  simp [validate_sql, hne, List.any_eq_true, startsWithL_iff, h2, h3]

theorem validate_sql_reject_danger (q : List Char) (h1 : q ≠ [])
    (h2 : AllowedStartSpec (pyStrip (pyLowerL q)))
    (h3 : ';' ∉ (pyStrip (pyLowerL q)).dropLast)
    (h4 : HasDangerSpec (pyStrip (pyLowerL q))) :
    validate_sql q = (false, chars "Potentially dangerous operation detected") := by
  have hne : q.isEmpty = false := by simp [List.isEmpty_iff, h1]
  simp only [AllowedStartSpec] at h2
  simp only [HasDangerSpec] at h4
  simp [validate_sql, hne, List.any_eq_true, startsWithL_iff, hasSubstr_iff, h2, h3, h4]

theorem validate_sql_accept (q : List Char) (h1 : q ≠ [])
    (h2 : AllowedStartSpec (pyStrip (pyLowerL q)))
    (h3 : ';' ∉ (pyStrip (pyLowerL q)).dropLast)
    (h4 : ¬ HasDangerSpec (pyStrip (pyLowerL q))) :
    validate_sql q = (true, []) := by
  have hne : q.isEmpty = false := by simp [List.isEmpty_iff, h1]
  simp only [AllowedStartSpec] at h2
  simp only [HasDangerSpec] at h4
  simp [validate_sql, hne, List.any_eq_true, startsWithL_iff, hasSubstr_iff, h2, h3, h4]

/-- C5: full characterization of the validator.  Acceptance (with the empty
reason) holds exactly when the query is non-empty, its lower-cased stripped
text starts with select/insert/update/delete, that text has no semicolon
before its final character, and contains none of the dangerous substrings;
each rejection reason fires in exactly the code's check order. -/
theorem C5_validator_characterization (q : List Char) :
    (validate_sql q = (true, [])
      ↔ q ≠ [] ∧ AllowedStartSpec (pyStrip (pyLowerL q))
          ∧ ';' ∉ (pyStrip (pyLowerL q)).dropLast
          ∧ ¬ HasDangerSpec (pyStrip (pyLowerL q)))
    ∧ (q = [] → validate_sql q = (false, chars "Empty query"))
    ∧ (q ≠ [] → ¬ AllowedStartSpec (pyStrip (pyLowerL q)) →
        validate_sql q
          = (false, chars "Query must start with SELECT, INSERT, UPDATE, or DELETE"))
    ∧ (q ≠ [] → AllowedStartSpec (pyStrip (pyLowerL q)) →
        ';' ∈ (pyStrip (pyLowerL q)).dropLast →
        validate_sql q = (false, chars "Multiple queries not allowed"))
    ∧ (q ≠ [] → AllowedStartSpec (pyStrip (pyLowerL q)) →
        ';' ∉ (pyStrip (pyLowerL q)).dropLast →
        HasDangerSpec (pyStrip (pyLowerL q)) →
        validate_sql q = (false, chars "Potentially dangerous operation detected")) := by
  refine ⟨⟨fun hv => ?_, fun ⟨h1, h2, h3, h4⟩ => validate_sql_accept q h1 h2 h3 h4⟩,
    fun h1 => by subst h1; rfl,
    validate_sql_reject_start q, validate_sql_reject_multi q,
    validate_sql_reject_danger q⟩
  by_cases h1 : q = []
  · subst h1; exact absurd hv (by decide)
  by_cases h2 : AllowedStartSpec (pyStrip (pyLowerL q))
  · by_cases h3 : ';' ∈ (pyStrip (pyLowerL q)).dropLast
    · rw [validate_sql_reject_multi q h1 h2 h3] at hv
      exact absurd hv (by decide)
    · by_cases h4 : HasDangerSpec (pyStrip (pyLowerL q))
      · rw [validate_sql_reject_danger q h1 h2 h3 h4] at hv
        exact absurd hv (by decide)
      · exact ⟨h1, h2, h3, h4⟩
  · rw [validate_sql_reject_start q h1 h2] at hv
    exact absurd hv (by decide)

/-- Witness for C5: the characterization applied at four concrete queries,
one per rejection reason and one accepted. -/
theorem C5_witness :
    validate_sql (chars "select 1; select 2") = (false, chars "Multiple queries not allowed")
    ∧ validate_sql (chars "drop table x")
      = (false, chars "Query must start with SELECT, INSERT, UPDATE, or DELETE")
    ∧ validate_sql (chars "select alter_date from t")
      = (false, chars "Potentially dangerous operation detected")
    ∧ validate_sql (chars "select * from t;") = (true, []) := by
  refine ⟨(C5_validator_characterization (chars "select 1; select 2")).2.2.2.1
      (by decide) (by decide) (by decide),
    (C5_validator_characterization (chars "drop table x")).2.2.1 (by decide) (by decide),
    (C5_validator_characterization (chars "select alter_date from t")).2.2.2.2
      (by decide) (by decide) (by decide) (by decide),
    (C5_validator_characterization (chars "select * from t;")).1.mpr
      ⟨by decide, by decide, by decide, by decide⟩⟩

/-! ## Claim C4 -/

theorem validate_accepted_shape (r : List Char) (h : (validate_sql r).fst = true) :
    r ≠ [] ∧ AllowedStartSpec (pyStrip (pyLowerL r)) := by
  by_cases h1 : r = []
  · subst h1; exact absurd h (by decide)
  by_cases h2 : AllowedStartSpec (pyStrip (pyLowerL r))
  · exact ⟨h1, h2⟩
  · rw [validate_sql_reject_start r h1 h2] at h
    exact absurd h (by decide)

theorem allowedStart_head (x : Char) (as : List Char) (h : AllowedStartSpec (x :: as)) :
    x = 's' ∨ x = 'i' ∨ x = 'u' ∨ x = 'd' := by
  have e1 : chars "select" = 's' :: chars "elect" := rfl
  have e2 : chars "insert" = 'i' :: chars "nsert" := rfl
  have e3 : chars "update" = 'u' :: chars "pdate" := rfl
  have e4 : chars "delete" = 'd' :: chars "elete" := rfl
  rcases h with ⟨p, hp, hpre⟩
  simp only [ALLOWED_STARTS, List.mem_cons, List.not_mem_nil, or_false] at hp
  rcases hp with hp | hp | hp | hp <;> subst hp
  · rw [e1] at hpre; exact Or.inl (List.cons_prefix_cons.mp hpre).1.symm
  · rw [e2] at hpre; exact Or.inr (Or.inl (List.cons_prefix_cons.mp hpre).1.symm)
  · rw [e3] at hpre; exact Or.inr (Or.inr (Or.inl (List.cons_prefix_cons.mp hpre).1.symm))
  · rw [e4] at hpre; exact Or.inr (Or.inr (Or.inr (List.cons_prefix_cons.mp hpre).1.symm))

theorem accepted_no_head (r : List Char) (c : Char) (pat : List Char)
    (hsw : startsWithL (c :: pat) r = true)
    (hsp : pyIsSpace (pyToLower c) = false)
    (hns : pyToLower c ≠ 's') (hni : pyToLower c ≠ 'i')
    (hnu : pyToLower c ≠ 'u') (hnd : pyToLower c ≠ 'd')
    (hacc : (validate_sql r).fst = true) : False := by
  obtain ⟨u, rfl, _⟩ := startsWithL_cons_shape c pat r hsw
  obtain ⟨hne, hA⟩ := validate_accepted_shape (c :: u) hacc
  have hmap : pyLowerL (c :: u) = pyToLower c :: pyLowerL u := rfl
  have hdw : List.dropWhile pyIsSpace (pyToLower c :: pyLowerL u)
      = pyToLower c :: pyLowerL u := by
    rw [List.dropWhile_cons]; simp [hsp]
  have ht : pyStrip (pyLowerL (c :: u))
      = List.rdropWhile pyIsSpace (pyToLower c :: pyLowerL u) := by
    rw [pyStrip, hmap, hdw]
  have hpre := List.rdropWhile_prefix pyIsSpace (pyToLower c :: pyLowerL u)
  rcases hcase : List.rdropWhile pyIsSpace (pyToLower c :: pyLowerL u) with _ | ⟨a, as⟩
  · rw [ht, hcase] at hA
    exact absurd hA (by decide)
  · rw [hcase] at hpre
    have ha : a = pyToLower c := (List.cons_prefix_cons.mp hpre).1
    rw [ht, hcase, ha] at hA
    rcases allowedStart_head (pyToLower c) as hA with h | h | h | h
    · exact hns h
    · exact hni h
    · exact hnu h
    · exact hnd h

theorem accepted_not_error_tag (r : List Char) (hacc : (validate_sql r).fst = true) :
    startsWithL (chars "Error") r = false := by
  refine Bool.eq_false_iff.mpr fun hsw => ?_
  have e : chars "Error" = 'E' :: chars "rror" := rfl
  rw [e] at hsw
  exact accepted_no_head r 'E' (chars "rror") hsw (by decide) (by decide) (by decide)
    (by decide) (by decide) hacc

theorem accepted_not_validation_tag (r : List Char) (hacc : (validate_sql r).fst = true) :
    startsWithL (chars "Validation Error:") r = false := by
  refine Bool.eq_false_iff.mpr fun hsw => ?_
  have e : chars "Validation Error:" = 'V' :: chars "alidation Error:" := rfl
  rw [e] at hsw
  exact accepted_no_head r 'V' (chars "alidation Error:") hsw (by decide) (by decide)
    (by decide) (by decide) (by decide) hacc

/-- C4: with an initialized model, the orchestration function returns a value
for every input and every generation outcome (it is total by construction —
every Python `return`, including the `except` arms, is a branch of the
embedding), and the value is distinguishable: either the validator-accepted
cleaned query (which starts with neither "Error" nor "Validation Error:"),
or a string tagged "Validation Error:" (validator rejection), or a string
tagged "Error" (sensitive keyword, over-long question, content-policy block,
invalid argument, permission denied, quota exhausted, or unclassified
exception). -/
theorem C4_orchestration_total_and_tagged (input : List Char) (g : GenOutcome) :
    (∃ t, g = GenOutcome.ok t
      ∧ (validate_sql (clean_sql_query t)).fst = true
      ∧ get_gemini_response input true g = clean_sql_query t
      ∧ startsWithL (chars "Error") (get_gemini_response input true g) = false
      ∧ startsWithL (chars "Validation Error:") (get_gemini_response input true g) = false)
    ∨ startsWithL (chars "Error") (get_gemini_response input true g) = true
    ∨ startsWithL (chars "Validation Error:") (get_gemini_response input true g) = true := by
  by_cases hs : hasSensitiveKeyword input = true
  · refine Or.inr (Or.inl ?_)
    have hr : get_gemini_response input true g
        = chars "Error: Query contains potentially sensitive keywords" := by
      simp [get_gemini_response, hs]
    rw [hr]; decide
  · have hs' : hasSensitiveKeyword input = false := Bool.eq_false_iff.mpr hs
    by_cases hl : input.length > MAX_QUERY_LENGTH
    · refine Or.inr (Or.inl ?_)
      have hr : get_gemini_response input true g
          = chars "Error: Query too long (max " ++ (Nat.repr MAX_QUERY_LENGTH).data
            ++ chars " characters)" := by
        simp [get_gemini_response, hs', hl]
      rw [hr]; decide
    · cases g with
      | ok t =>
        cases hv : (validate_sql (clean_sql_query t)).fst with
        | false =>
          refine Or.inr (Or.inr ?_)
          have hr : get_gemini_response input true (GenOutcome.ok t)
              = chars "Validation Error: " ++ (validate_sql (clean_sql_query t)).snd := by
            simp [get_gemini_response, hs', hl, hv]
          rw [hr]
          exact startsWithL_append_left _ _ _ (by decide)
        | true =>
          refine Or.inl ⟨t, rfl, hv, ?_, ?_, ?_⟩
          · simp [get_gemini_response, hs', hl, hv]
          · have hr : get_gemini_response input true (GenOutcome.ok t)
                = clean_sql_query t := by simp [get_gemini_response, hs', hl, hv]
            rw [hr]; exact accepted_not_error_tag _ hv
          · have hr : get_gemini_response input true (GenOutcome.ok t)
                = clean_sql_query t := by simp [get_gemini_response, hs', hl, hv]
            rw [hr]; exact accepted_not_validation_tag _ hv
      | valueError m =>
        refine Or.inr (Or.inl ?_)
        by_cases hp : (hasSubstr (chars "policy") (pyLowerL m)
            || hasSubstr (chars "safety") (pyLowerL m)) = true
        · have hr : get_gemini_response input true (GenOutcome.valueError m)
              = chars "Error: Prompt blocked for safety reasons" := by
            simp only [get_gemini_response, hs', hl]
            simp [hp]
          rw [hr]; decide
        · have hp' := Bool.eq_false_iff.mpr hp
          have hr : get_gemini_response input true (GenOutcome.valueError m)
              = chars "Error: " ++ m := by
            simp only [get_gemini_response, hs', hl]
            simp [hp']
          rw [hr]; exact startsWithL_append_left _ _ _ (by decide)
      | invalidArgument m =>
        refine Or.inr (Or.inl ?_)
        have hr : get_gemini_response input true (GenOutcome.invalidArgument m)
            = chars "Error: Invalid prompt - " ++ m := by
          simp [get_gemini_response, hs', hl]
        rw [hr]; exact startsWithL_append_left _ _ _ (by decide)
      | permissionDenied m =>
        refine Or.inr (Or.inl ?_)
        have hr : get_gemini_response input true (GenOutcome.permissionDenied m)
            = chars "Error: API key rejected - " ++ m := by
          simp [get_gemini_response, hs', hl]
        rw [hr]; exact startsWithL_append_left _ _ _ (by decide)
      | resourceExhausted m =>
        refine Or.inr (Or.inl ?_)
        have hr : get_gemini_response input true (GenOutcome.resourceExhausted m)
            = chars "Error: API quota exceeded - " ++ m := by
          simp [get_gemini_response, hs', hl]
        rw [hr]; exact startsWithL_append_left _ _ _ (by decide)
      | otherException m =>
        refine Or.inr (Or.inl ?_)
        have hr : get_gemini_response input true (GenOutcome.otherException m)
            = chars "Error generating SQL query: " ++ m := by
          simp [get_gemini_response, hs', hl]
        rw [hr]; exact startsWithL_append_left _ _ _ (by decide)

/-! ## Claim C7, amended part -/

/-- C7 amended: only the exact lowercase-tagged opening `` ```sql `` is
removed in full (six characters); every other opening fence — bare or with
any other language tag, including upper-case "SQL" — loses exactly the three
backticks and keeps its tag.  The concrete conjunct shows the tag "mysql"
surviving an entire cleaning pass. -/
theorem C7_amended_open_fence (rest : List Char)
    (h : startsWithL (chars "sql") rest = false) :
    stripOpenFence (chars "```sql" ++ rest) = rest
    ∧ stripOpenFence (chars "```" ++ rest) = rest
    ∧ clean_sql_query (chars "```mysql\nselect 1\n```") = chars "mysql\nselect 1" := by
  refine ⟨?_, ?_, by decide⟩
  · have h1 : startsWithL (chars "```sql") (chars "```sql" ++ rest) = true :=
      startsWithL_self_append _ _
    rw [stripOpenFence, if_pos h1]
    have e : chars "```sql" ++ rest = '`' :: '`' :: '`' :: 's' :: 'q' :: 'l' :: rest := rfl
    rw [e]
    rfl
  · have esplit : chars "```sql" = chars "```" ++ chars "sql" := rfl
    have h1 : startsWithL (chars "```sql") (chars "```" ++ rest) = false := by
      rw [esplit, startsWithL_append_both]
      exact h
    have h2 : startsWithL (chars "```") (chars "```" ++ rest) = true :=
      startsWithL_self_append _ _
    rw [stripOpenFence, if_neg (by simp [h1]), if_pos h2]
    have e : chars "```" ++ rest = '`' :: '`' :: '`' :: rest := rfl
    rw [e]
    rfl

/-- Witness for C7 at the concrete tag "mysql x". -/
theorem C7_witness :
    stripOpenFence (chars "```sql" ++ chars "mysql x") = chars "mysql x"
    ∧ stripOpenFence (chars "```" ++ chars "mysql x") = chars "mysql x" :=
  ⟨(C7_amended_open_fence (chars "mysql x") (by decide)).1,
   (C7_amended_open_fence (chars "mysql x") (by decide)).2.1⟩

/-! ## Claim C8, amended part: supporting lemmas -/

theorem rdropWhile_cons_eq (p : Char → Bool) (a : Char) (l : List Char) :
    List.rdropWhile p (a :: l)
      = if List.rdropWhile p l = [] then (if p a then [] else [a])
        else a :: List.rdropWhile p l := by
  have hiff : (List.rdropWhile p l = []) ↔ ((l.reverse.dropWhile p).isEmpty = true) := by
    rw [List.isEmpty_iff, List.rdropWhile, List.reverse_eq_nil_iff]
  rw [List.rdropWhile, List.reverse_cons, List.dropWhile_append]
  by_cases h : List.rdropWhile p l = []
  · rw [if_pos h, if_pos (hiff.mp h)]
    by_cases hpa : p a = true
    · rw [if_pos hpa]; simp [List.dropWhile_cons, hpa]
    · rw [if_neg hpa]; simp [List.dropWhile_cons, hpa]
  · rw [if_neg h]
    have hne : (l.reverse.dropWhile p).isEmpty = false :=
      Bool.eq_false_iff.mpr fun hx => h (hiff.mpr hx)
    rw [if_neg (by simp [hne])]
    rw [List.reverse_append]
    simp [List.rdropWhile]

theorem bt_rdropWhile (s : List Char) (h : startsWithL (chars "```") s = true) :
    startsWithL (chars "```") (List.rdropWhile pyIsSpace s) = true := by
  have e : chars "```" = '`' :: '`' :: '`' :: [] := rfl
  rw [e] at h
  obtain ⟨u1, rfl, h1⟩ := startsWithL_cons_shape _ _ _ h
  obtain ⟨u2, rfl, h2⟩ := startsWithL_cons_shape _ _ _ h1
  obtain ⟨u3, rfl, _⟩ := startsWithL_cons_shape _ _ _ h2
  have hn1 : List.rdropWhile pyIsSpace ('`' :: '`' :: u3) ≠ [] := by
    rw [Ne, List.rdropWhile_eq_nil_iff]
    intro hall
    exact absurd (hall '`' (by simp)) (by decide)
  have hn2 : List.rdropWhile pyIsSpace ('`' :: u3) ≠ [] := by
    rw [Ne, List.rdropWhile_eq_nil_iff]
    intro hall
    exact absurd (hall '`' (by simp)) (by decide)
  rw [rdropWhile_cons_eq, if_neg hn1, rdropWhile_cons_eq, if_neg hn2, rdropWhile_cons_eq]
  by_cases h3 : List.rdropWhile pyIsSpace u3 = []
  · rw [if_pos h3]; decide
  · rw [if_neg h3, e]
    simp [startsWithL]

theorem bt_dropWhile (s : List Char) (h : startsWithL (chars "```") s = true) :
    List.dropWhile pyIsSpace s = s := by
  have e : chars "```" = '`' :: '`' :: '`' :: [] := rfl
  rw [e] at h
  obtain ⟨u1, rfl, _⟩ := startsWithL_cons_shape _ _ _ h
  rw [List.dropWhile_cons, if_neg (by decide : ¬ pyIsSpace '`' = true)]

theorem rdropWhile_reverse_eq (p : Char → Bool) (l : List Char) :
    (List.rdropWhile p l).reverse = List.dropWhile p l.reverse := by
  rw [List.rdropWhile, List.reverse_reverse]

theorem rdropWhile_of_reverse (p : Char → Bool) (l : List Char) :
    List.rdropWhile p l.reverse = (List.dropWhile p l).reverse := by
  rw [List.rdropWhile, List.reverse_reverse]

theorem bt_transfer_open (s : List Char)
    (h : startsWithL (chars "```") (pyStrip s) = false) :
    startsWithL (chars "```") s = false := by
  refine Bool.eq_false_iff.mpr fun hx => ?_
  have h1 : List.dropWhile pyIsSpace s = s := bt_dropWhile s hx
  have h2 : startsWithL (chars "```") (pyStrip s) = true := by
    rw [pyStrip, h1]; exact bt_rdropWhile s hx
  exact absurd (h2.symm.trans h) (by decide)

theorem bt_transfer_close (s : List Char)
    (h : endsWithL (chars "```") (pyStrip s) = false) :
    endsWithL (chars "```") s = false := by
  refine Bool.eq_false_iff.mpr fun hx => ?_
  have erev : (chars "```").reverse = chars "```" := rfl
  rw [endsWithL, erev] at hx
  have key : (pyStrip s).reverse
      = List.dropWhile pyIsSpace (List.rdropWhile pyIsSpace s.reverse) := by
    rw [pyStrip, rdropWhile_reverse_eq, ← rdropWhile_of_reverse]
  have h1 := bt_rdropWhile s.reverse hx
  have h2 := bt_dropWhile _ h1
  have h3 : endsWithL (chars "```") (pyStrip s) = true := by
    rw [endsWithL, erev, key, h2]; exact h1
  exact absurd (h3.symm.trans h) (by decide)

theorem dropWhile_head_false (p : Char → Bool) (s : List Char) :
    ∀ {a : Char} {as : List Char}, List.dropWhile p s = a :: as → p a = false := by
  induction s with
  | nil => intro a as h; simp at h
  | cons c cs ih =>
    intro a as h
    rw [List.dropWhile_cons] at h
    by_cases hc : p c = true
    · rw [if_pos hc] at h; exact ih h
    · rw [if_neg hc] at h
      injection h with h1 h2
      subst h1
      exact Bool.eq_false_iff.mpr hc

theorem dropWhile_pyStrip (s : List Char) :
    List.dropWhile pyIsSpace (pyStrip s) = pyStrip s := by
  rcases hc : pyStrip s with _ | ⟨a, as⟩
  · rfl
  · have h0 := List.rdropWhile_prefix pyIsSpace (List.dropWhile pyIsSpace s)
    rw [← pyStrip, hc] at h0
    obtain ⟨v, hv⟩ := h0
    have hu : List.dropWhile pyIsSpace s = a :: (as ++ v) := by
      rw [← hv]; rfl
    have hpa : pyIsSpace a = false := dropWhile_head_false pyIsSpace s hu
    rw [List.dropWhile_cons, if_neg (by simp [hpa])]

theorem pyStrip_idem (s : List Char) : pyStrip (pyStrip s) = pyStrip s := by
  have h1 : pyStrip (pyStrip s)
      = List.rdropWhile pyIsSpace (List.dropWhile pyIsSpace (pyStrip s)) := rfl
  rw [h1, dropWhile_pyStrip, pyStrip]
  exact List.rdropWhile_idempotent pyIsSpace (List.dropWhile pyIsSpace s)

theorem stripLabels_id (s : List Char)
    (h : ∀ l ∈ PREFIXES_TO_REMOVE, startsWithL l (pyStrip s) = false) :
    stripLabels s = s := by
  have h1 := h (chars "SQL Query:") (by simp [PREFIXES_TO_REMOVE])
  have h2 := h (chars "SQL:") (by simp [PREFIXES_TO_REMOVE])
  have h3 := h (chars "Query:") (by simp [PREFIXES_TO_REMOVE])
  have h4 := h (chars "Answer:") (by simp [PREFIXES_TO_REMOVE])
  have e1 : stripLabelStep s (chars "SQL Query:") = s := by
    rw [stripLabelStep, if_neg (by simp [h1])]
  have e2 : stripLabelStep s (chars "SQL:") = s := by
    rw [stripLabelStep, if_neg (by simp [h2])]
  have e3 : stripLabelStep s (chars "Query:") = s := by
    rw [stripLabelStep, if_neg (by simp [h3])]
  have e4 : stripLabelStep s (chars "Answer:") = s := by
    rw [stripLabelStep, if_neg (by simp [h4])]
  simp only [stripLabels, PREFIXES_TO_REMOVE, List.foldl_cons, List.foldl_nil,
    e1, e2, e3, e4]

theorem clean_of_trimmed_plain (s : List Char)
    (h1 : startsWithL (chars "```") (pyStrip s) = false)
    (h2 : endsWithL (chars "```") (pyStrip s) = false)
    (h3 : ∀ l ∈ PREFIXES_TO_REMOVE, startsWithL l (pyStrip s) = false) :
    clean_sql_query s = pyStrip s := by
  have hso : startsWithL (chars "```") s = false := bt_transfer_open s h1
  have hec : endsWithL (chars "```") s = false := bt_transfer_close s h2
  have hsql : startsWithL (chars "```sql") s = false := by
    refine Bool.eq_false_iff.mpr fun hx => ?_
    have esplit : chars "```sql" = chars "```" ++ chars "sql" := rfl
    rw [esplit] at hx
    have h' := startsWithL_pattern_append _ _ _ hx
    exact absurd (h'.symm.trans hso) (by decide)
  have hlb : stripLabels s = s := stripLabels_id s h3
  cases s with
  | nil => rfl
  | cons c u =>
    have hof : stripOpenFence (c :: u) = c :: u := by
      rw [stripOpenFence, if_neg (by simp [hsql]), if_neg (by simp [hso])]
    have hcf : stripCloseFence (c :: u) = c :: u := by
      rw [stripCloseFence, if_neg (by simp [hec])]
    rw [clean_sql_query, if_neg (by simp), hof, hcf, hlb]

/-- C8 amended: on every string whose stripped form carries no opening or
closing fence marker and no label prefix, cleaning returns the stripped form
and is idempotent, and the empty string cleans to the empty string.  The
unconditional claim "clean(clean(s)) = clean(s) for every s" is false (see
the counterexample): the fence tests run on the untrimmed text, so leading
whitespace can hide a fence from the first pass only. -/
theorem C8_amended_conditional_idempotence (s : List Char)
    (h1 : startsWithL (chars "```") (pyStrip s) = false)
    (h2 : endsWithL (chars "```") (pyStrip s) = false)
    (h3 : ∀ l ∈ PREFIXES_TO_REMOVE, startsWithL l (pyStrip s) = false) :
    clean_sql_query s = pyStrip s
    ∧ clean_sql_query (clean_sql_query s) = clean_sql_query s
    ∧ clean_sql_query [] = [] := by
  have hc := clean_of_trimmed_plain s h1 h2 h3
  have hidem := pyStrip_idem s
  have h1' : startsWithL (chars "```") (pyStrip (pyStrip s)) = false := by
    rw [hidem]; exact h1
  have h2' : endsWithL (chars "```") (pyStrip (pyStrip s)) = false := by
    rw [hidem]; exact h2
  have h3' : ∀ l ∈ PREFIXES_TO_REMOVE, startsWithL l (pyStrip (pyStrip s)) = false := by
    intro l hl; rw [hidem]; exact h3 l hl
  have hc2 := clean_of_trimmed_plain (pyStrip s) h1' h2' h3'
  refine ⟨hc, ?_, rfl⟩
  rw [hc, hc2, hidem]

/-- Witness for C8 at the concrete already-clean input "select 1". -/
theorem C8_witness :
    clean_sql_query (chars "select 1") = pyStrip (chars "select 1")
    ∧ clean_sql_query (clean_sql_query (chars "select 1"))
      = clean_sql_query (chars "select 1") :=
  ⟨(C8_amended_conditional_idempotence (chars "select 1")
      (by decide) (by decide) (by decide)).1,
   (C8_amended_conditional_idempotence (chars "select 1")
      (by decide) (by decide) (by decide)).2.1⟩
